import Mathlib

/-!
Verification development for the Knowledge-Base PDF ingestion and semantic
search service.  The definitions below are a shallow embedding of the Python
source (`app/services/ingest_service.py`, `app/core/ingest.py`,
`app/core/search.py`, `app/api/ingest.py`, `app/api/search.py`,
`app/models.py`, `app/config.py`, `app/main.py`).  External collaborators
(PDF parsing, the text splitter, the Qdrant vector store, the filesystem)
are modelled as function parameters; machine-level effects (dict writes,
raised exceptions) are modelled as explicit state passing and `Except`.
-/

namespace KB

/-- PDF byte content; never inspected by the embedded core, only handed to
external collaborators, so raw bytes are modelled as a list of naturals. -/
abbrev PdfBytes := List Nat

/-- `app/models.py` `JobStatus` (StrEnum with pending/processing/completed/failed). -/
inductive JobStatus where
  | pending
  | processing
  | completed
  | failed
deriving DecidableEq, Repr

/-- A job-store entry, mirroring the dict values written to
`state.job_status[job_id]` in `app/services/ingest_service.py` and
`app/api/ingest.py`: keys `"status"`, `"files"`, `"error"`. -/
structure JobRecord where
  status : JobStatus
  files : List String
  error : Option String
deriving DecidableEq, Repr

/-- One step of the file loop in `run_background_ingest`
(`app/services/ingest_service.py` lines 58-72), with the per-file effect
(`process_and_store_pdf_async`: extraction, chunking and the store call,
any of which may raise) abstracted as `proc`, returning `.error msg` for a
raised exception with message `msg`.  The first accumulator `ingested` is
the local `ingested` list; the second, `attempted`, records each file for
which `proc` was actually invoked (the side-effect trace used to state
that later files are never processed).  Returns the final record written
to `job_status[job_id]` together with the attempted files. -/
def ingestLoop (proc : String → PdfBytes → Except String Unit) :
    List (String × PdfBytes) → List String → List String → JobRecord × List String
  | [], ingested, _attempted =>
      (⟨JobStatus.completed, ingested, none⟩, _attempted)
  | (filename, content) :: rest, ingested, _attempted =>
      match proc filename content with
      | Except.ok _ => ingestLoop proc rest (ingested ++ [filename]) (_attempted ++ [filename])
      | Except.error e => (⟨JobStatus.failed, ingested, some e⟩, _attempted ++ [filename])

/-- `run_background_ingest` (`app/services/ingest_service.py` lines 43-85):
sets the record to processing, runs the file loop, and ends with exactly one
terminal write (Completed after the loop, or Failed inside it).  The value
returned here is that terminal record, paired with the list of files whose
processing was actually started. -/
def run_background_ingest (proc : String → PdfBytes → Except String Unit)
    (files_to_process : List (String × PdfBytes)) : JobRecord × List String :=
  ingestLoop proc files_to_process [] []

/-- The suffix of the job-store write trace produced by the file loop of
`run_background_ingest`: the loop itself performs no intermediate writes,
ending in exactly one terminal write — Failed (with the files ingested so
far and the failure message) from the per-file `except` handler, or
Completed (with the full ingested list and no error) after the loop. -/
def traceLoop (proc : String → PdfBytes → Except String Unit) :
    List (String × PdfBytes) → List String → List JobRecord
  | [], ingested => [⟨JobStatus.completed, ingested, none⟩]
  | (filename, content) :: rest, ingested =>
      match proc filename content with
      | Except.ok _ => traceLoop proc rest (ingested ++ [filename])
      | Except.error e => [⟨JobStatus.failed, ingested, some e⟩]

/-- The full sequence of writes to `job_status[job_id]` for one job, in
order: the Pending record written at submission (`app/api/ingest.py` line
84), the Processing record written at the start of `run_background_ingest`
(line 56), then the loop's single terminal write. -/
def jobWriteTrace (proc : String → PdfBytes → Except String Unit)
    (files : List (String × PdfBytes)) : List JobRecord :=
  ⟨JobStatus.pending, [], none⟩ :: ⟨JobStatus.processing, [], none⟩ ::
    traceLoop proc files []

/-- A record whose status is terminal (Completed or Failed). -/
def isTerminal (r : JobRecord) : Bool :=
  r.status = JobStatus.completed ∨ r.status = JobStatus.failed

/-- Python's `str.strip()` (whitespace from both ends), modelled directly on
the character list underlying the string. -/
def pyStrip (s : String) : String :=
  ⟨((s.data.dropWhile Char.isWhitespace).reverse.dropWhile Char.isWhitespace).reverse⟩

/-- A LangChain `Document` as used by the core: `page_content` plus the
`metadata` dict, of which the core only ever reads the `"source"` key
(`doc.metadata.get("source", "unknown")` in `app/core/search.py`), so
metadata is modelled as that optional key alone. -/
structure Document where
  page_content : String
  source : Option String
deriving DecidableEq, Repr

/-- `process_pdf_to_documents` (`app/core/ingest.py` lines 41-50): extract
text (external collaborator `extract_text_from_pdf`, passed as the total
success-path parameter `extract`; its raising path is folded into the
fallible per-file effect at the service layer), return no documents when
the text is empty or all-whitespace, otherwise wrap the text as a single
Document and hand it to the external `RecursiveCharacterTextSplitter`
(parameter `split`). -/
def process_pdf_to_documents (extract : PdfBytes → String → String)
    (split : List Document → List Document)
    (content : PdfBytes) (filename : String) : List Document :=
  let text := extract content filename
  if text = "" ∨ pyStrip text = "" then []
  else split [⟨text, some filename⟩]

/-- `_process_and_store_pdf` (`app/services/ingest_service.py` lines 14-24):
chunk the file; if there are no documents return `[filename]` without
touching the vector store, otherwise call `vectorstore.add_documents`
(parameter `store`, which may raise) and return `[filename]`.  The second
component records the batches actually handed to `add_documents`. -/
def process_and_store_pdf (extract : PdfBytes → String → String)
    (split : List Document → List Document)
    (store : List Document → Except String Unit)
    (content : PdfBytes) (filename : String) :
    Except String (List String) × List (List Document) :=
  let documents := process_pdf_to_documents extract split content filename
  if documents = [] then (Except.ok [filename], [])
  else
    match store documents with
    | Except.ok _ => (Except.ok [filename], [documents])
    | Except.error e => (Except.error e, [documents])

/-- Python's banker's rounding of an exact rational to an integer
(`round(x)`): nearest integer, ties to even. -/
def roundHalfToEven (q : ℚ) : ℤ :=
  let n := Int.floor q
  let frac := q - n
  if frac < 1/2 then n
  else if 1/2 < frac then n + 1
  else if n % 2 = 0 then n else n + 1

/-- Python's `round(x, 2)` on exact rationals: round to the nearest
hundredth, ties to even. -/
def round2 (q : ℚ) : ℚ := (roundHalfToEven (q * 100) : ℚ) / 100

/-- `app/models.py` `SearchResult`: document (source), score, content.
Scores, which are floats on the cosine-distance scale in the source, are
modelled as exact rationals. -/
structure SearchResult where
  document : String
  score : ℚ
  content : String
deriving DecidableEq, Repr

/-- `app/config.py` `SEARCH_SCORE_THRESHOLD` default: 1.5 (cosine distance,
lower is better). -/
def SEARCH_SCORE_THRESHOLD : ℚ := 3/2

/-- The result shaping in the loop body of `search_vectorstore`
(`app/core/search.py` lines 27-33): the original source identifier (or
"unknown" when the metadata lacks one), the score rounded to two decimals,
and the matched text. -/
def mkSearchResult (doc : Document) (score : ℚ) : SearchResult :=
  ⟨doc.source.getD "unknown", round2 score, doc.page_content⟩

/-- `search_vectorstore` (`app/core/search.py` lines 13-34) after the
external index call: the candidate list returned by
`vectorstore.similarity_search_with_score` is the input `hits`; candidates
whose score exceeds the configured threshold are skipped (`continue`), the
rest are appended in order. -/
def search_vectorstore (scoreThreshold : ℚ) :
    List (Document × ℚ) → List SearchResult
  | [] => []
  | (doc, score) :: rest =>
      if score > scoreThreshold then search_vectorstore scoreThreshold rest
      else mkSearchResult doc score :: search_vectorstore scoreThreshold rest

/-- `app/models.py` `SearchResponse`: its declared fields are exactly
`results` — the model has no `message` field. -/
structure SearchResponse where
  results : List SearchResult
deriving DecidableEq, Repr

/-- The constructor call `SearchResponse(results=results, message=message)`
at `app/api/search.py` line 38: Pydantic v2 `BaseModel` silently ignores
keyword arguments that are not declared fields (default config
`extra="ignore"`), and FastAPI additionally filters the response through
`response_model=SearchResponse`, so the `message` argument never reaches
the serialized response. -/
def searchResponseInit (results : List SearchResult) (_message : Option String) :
    SearchResponse :=
  ⟨results⟩

/-- The `/search/` route handler (`app/api/search.py` lines 17-38): trim
the query, reject an empty result with HTTP 400, run the engine (parameter
`run_search`, `search_vectorstore` in the source; a raised exception maps
to HTTP 500), compute the fallback message for an empty result list, and
build the response. -/
def search_route (run_search : String → Except String (List SearchResult))
    (query : String) : Except Nat SearchResponse :=
  let q := pyStrip query
  if q = "" then Except.error 400
  else
    match run_search q with
    | Except.error _ => Except.error 500
    | Except.ok results =>
        let message := if results.isEmpty then some "No relevant documents found." else none
        Except.ok (searchResponseInit results message)

/-- `app/models.py` `JobStatusResponse`. -/
structure JobStatusResponse where
  job_id : String
  status : JobStatus
  files : List String
  error : Option String
deriving DecidableEq, Repr

/-- `ingest_status` (`app/api/ingest.py` lines 100-115): HTTP 404 when the
job id is absent from the store, else the stored record's fields.  The
shared store `state.job_status` is modelled as a partial map. -/
def ingest_status (job_status : String → Option JobRecord) (job_id : String) :
    Except Nat JobStatusResponse :=
  match job_status job_id with
  | none => Except.error 404
  | some info => Except.ok ⟨job_id, info.status, info.files, info.error⟩

/-- `app/config.py`: `INGEST_DATA_PATH = "/data"`, the permitted ingestion
root for directory-style submissions. -/
def INGEST_DATA_PATH : String := "/data"

/-- Split a character list on a separator character (the component view of
a path string that `pathlib` works with). -/
def splitOnChar (sep : Char) : List Char → List (List Char)
  | [] => [[]]
  | c :: rest =>
      let r := splitOnChar sep rest
      if c = sep then [] :: r
      else
        match r with
        | [] => [[c]]
        | g :: gs => (c :: g) :: gs

/-- Component normalization performed by `Path.resolve()` on an absolute
path (no symlinks in the model): empty and `.` components disappear, `..`
pops the previous component (staying at the root when there is none). -/
def resolveComps : List (List Char) → List (List Char) :=
  List.foldl
    (fun acc c =>
      if c = [] ∨ c = ['.'] then acc
      else if c = ['.', '.'] then acc.dropLast
      else acc ++ [c]) []

/-- `str(Path(s).resolve())` for an absolute path string `s`. -/
def resolveAbs (s : String) : String :=
  ⟨'/' :: List.intercalate ['/'] (resolveComps (splitOnChar '/' s.data))⟩

/-- Python `str.startswith`. -/
def strStartsWith (s pre : String) : Bool :=
  pre.data.isPrefixOf s.data

/-- The `resolved` path computed by `get_pdf_files_from_directory`
(`app/core/ingest.py` lines 59-66): empty, "." and "/" inputs map to the
base, other absolute inputs resolve as given, relative inputs resolve
against the base. -/
def resolvedDirOf (dir_path : String) : String :=
  let path := pyStrip dir_path
  if path = "" ∨ path = "." ∨ path = "/" then resolveAbs INGEST_DATA_PATH
  else if strStartsWith path "/" then resolveAbs path
  else resolveAbs (INGEST_DATA_PATH ++ "/" ++ path)

/-- `get_pdf_files_from_directory` (`app/core/ingest.py` lines 53-81) with
the filesystem as an oracle: `fs resolved = some pdfs` models an existing
directory whose recursive glob over `**/*.pdf` yields the readable files
`pdfs` as (filename, bytes) pairs; `none` models a missing path or a
non-directory.  The traversal guard is the source's plain string-prefix
test `str(resolved).startswith(str(base))`. -/
def get_pdf_files_from_directory
    (fs : String → Option (List (String × PdfBytes)))
    (dir_path : String) : Except String (List (String × PdfBytes)) :=
  let base := resolveAbs INGEST_DATA_PATH
  let resolved := resolvedDirOf dir_path
  if strStartsWith resolved base = false then
    Except.error "Invalid directory path: path traversal not allowed"
  else
    match fs resolved with
    | none => Except.error ("Directory not found: " ++ dir_path)
    | some pdfs => Except.ok pdfs

/-- `app/models.py` `IngestResponse`. -/
structure IngestResponse where
  job_id : Option String
  message : String
  files : List String
deriving DecidableEq, Repr

/-- Everything the submission boundary does besides returning a response:
the Pending record written to the job store, and the background task handed
to `run_background_ingest` (job id and file list) — `none` when no record
is created or no task is scheduled. -/
structure SubmissionOutcome where
  response : IngestResponse
  createdRecord : Option (String × JobRecord)
  spawnedTask : Option (String × List (String × PdfBytes))
deriving DecidableEq, Repr

/-- The acceptance message built at `app/api/ingest.py` lines 93-96. -/
def ingestAcceptedMessage (count : Nat) : String :=
  "Ingestion started. " ++ toString count ++ " PDF document" ++
    (if count ≠ 1 then "s" else "") ++ " queued for processing."

/-- The directory branch of the `ingest` route (`app/api/ingest.py` lines
41-56 and 83-98): strip the path, reject an empty one with HTTP 400,
resolve the PDFs (a `ValueError` maps to HTTP 400), return early — no job
record, no task — when no PDFs are found, otherwise write the Pending
record under a fresh id (parameter `new_job_id`, `uuid.uuid4()` in the
source), schedule the background task, and acknowledge. -/
def ingest_route_directory (fs : String → Option (List (String × PdfBytes)))
    (new_job_id : String) (raw_path : String) : Except Nat SubmissionOutcome :=
  let path := pyStrip raw_path
  if path = "" then Except.error 400
  else
    match get_pdf_files_from_directory fs path with
    | Except.error _ => Except.error 400
    | Except.ok [] =>
        Except.ok ⟨⟨none, "No PDF files found in directory.", []⟩, none, none⟩
    | Except.ok pdfs =>
        Except.ok
          ⟨⟨some new_job_id, ingestAcceptedMessage pdfs.length, pdfs.map Prod.fst⟩,
            some (new_job_id, ⟨JobStatus.pending, [], none⟩),
            some (new_job_id, pdfs)⟩

/-- The phase of one ingestion job relative to the global concurrency gate
`state.ingest_semaphore`: `waiting` before `async with semaphore` grants a
permit, `running` while the job holds one (each pending file recorded by a
Bool that is true exactly when its processing raises), `done` after the
`async with` block has released the permit.  Python's `async with`
guarantees the release on every exit path of the block — normal
completion, the fail-fast `return` after a per-file failure, or an
unexpected exception. -/
inductive JobPhase where
  | waiting (work : List Bool)
  | running (work : List Bool)
  | done
deriving DecidableEq

/-- `asyncio.Semaphore(4)` created in `lifespan` (`app/main.py` line 37). -/
def semaphoreCapacity : Nat := 4

/-- A job currently holding a gate permit. -/
def isActive : JobPhase → Bool
  | JobPhase.running _ => true
  | _ => false

/-- A configuration of the concurrent system: the semaphore's available
permits, and the phases of the in-flight jobs (job identity is irrelevant
to the gate, so a multiset). -/
abbrev GateConfig := Nat × Multiset JobPhase

/-- Interleaved small-step semantics of the jobs' interaction with the gate
in `run_background_ingest` (`app/services/ingest_service.py` line 57):
`acquire` models `async with semaphore` granting a permit when one is
available; `fileOk` and `fileFail` model one file's processing inside the
block (a failure takes the fail-fast `return`, abandoning the remaining
files); `finish` models leaving the `async with` block, which releases the
permit on every exit path. -/
inductive GateStep : GateConfig → GateConfig → Prop
  | acquire (p : Nat) (w : List Bool) (rest : Multiset JobPhase) :
      GateStep (p + 1, JobPhase.waiting w ::ₘ rest) (p, JobPhase.running w ::ₘ rest)
  | fileOk (p : Nat) (w : List Bool) (rest : Multiset JobPhase) :
      GateStep (p, JobPhase.running (false :: w) ::ₘ rest) (p, JobPhase.running w ::ₘ rest)
  | fileFail (p : Nat) (w : List Bool) (rest : Multiset JobPhase) :
      GateStep (p, JobPhase.running (true :: w) ::ₘ rest) (p, JobPhase.running [] ::ₘ rest)
  | finish (p : Nat) (rest : Multiset JobPhase) :
      GateStep (p, JobPhase.running [] ::ₘ rest) (p + 1, JobPhase.done ::ₘ rest)

/-- The number of jobs simultaneously active past the gate acquisition. -/
def activeJobs (jobs : Multiset JobPhase) : Nat :=
  Multiset.countP (fun j => isActive j = true) jobs

/-- The initial configuration: all permits free, every submitted job still
waiting on the gate with its file outcomes `ws`. -/
def initConfig (ws : List (List Bool)) : GateConfig :=
  (semaphoreCapacity, ((ws.map JobPhase.waiting : List JobPhase) : Multiset JobPhase))

/-- Concrete job store for the C8 witness: exactly one finished job. -/
def claim8Store : String → Option JobRecord := fun job_id =>
  if job_id = "job-1" then some ⟨JobStatus.completed, ["a.pdf"], none⟩ else none

/-- A per-file effect in which A succeeds and every other file raises an
exception whose message is the empty string (`str(ValueError()) == ""`),
as the store or extractor may do. -/
def procEmptyMsg : String → PdfBytes → Except String Unit := fun filename _ =>
  if filename = "A" then Except.ok () else Except.error ""

/-- Filesystem oracle for the C4 evaluation: `/database` is an existing
directory — a sibling of the permitted root `/data` — holding one PDF. -/
def claim4Fs : String → Option (List (String × PdfBytes)) := fun p =>
  if p = "/database" then some [("x.pdf", [1])] else none

/-- Filesystem oracle for the C10 witness: `/data` exists and holds no
PDF files. -/
def claim10Fs : String → Option (List (String × PdfBytes)) := fun p =>
  if p = "/data" then some [] else none

/-- All-success unfolding of the file loop: if every file's processing
succeeds, the loop ends Completed with both accumulators extended by all
the filenames in order. -/
theorem ingestLoop_all_ok (proc : String → PdfBytes → Except String Unit) :
    ∀ (files : List (String × PdfBytes)) (ingested attempted : List String),
      (∀ p ∈ files, proc p.1 p.2 = Except.ok ()) →
      ingestLoop proc files ingested attempted =
        (⟨JobStatus.completed, ingested ++ files.map Prod.fst, none⟩,
          attempted ++ files.map Prod.fst) := by
  intro files
  induction files with
  | nil => intro ingested attempted _; simp [ingestLoop]
  | cons p rest ih =>
      intro ingested attempted hall
      obtain ⟨filename, content⟩ := p
      have hp : proc filename content = Except.ok () :=
        hall (filename, content) (List.mem_cons_self _ _)
      have hrest : ∀ q ∈ rest, proc q.1 q.2 = Except.ok () := fun q hq =>
        hall q (List.mem_cons_of_mem _ hq)
      simp only [ingestLoop, hp]
      rw [ih (ingested ++ [filename]) (attempted ++ [filename]) hrest]
      simp

/-- The loop's write trace is always a single terminal record. -/
theorem traceLoop_singleton (proc : String → PdfBytes → Except String Unit) :
    ∀ (files : List (String × PdfBytes)) (ingested : List String),
      ∃ r, traceLoop proc files ingested = [r] ∧ isTerminal r = true := by
  intro files
  induction files with
  | nil =>
      intro ingested
      exact ⟨⟨JobStatus.completed, ingested, none⟩, rfl, by simp [isTerminal]⟩
  | cons p rest ih =>
      intro ingested
      obtain ⟨filename, content⟩ := p
      cases hp : proc filename content with
      | ok u =>
          obtain ⟨r, hr, ht⟩ := ih (ingested ++ [filename])
          exact ⟨r, by simp [traceLoop, hp, hr], ht⟩
      | error e =>
          exact ⟨⟨JobStatus.failed, ingested, some e⟩, by simp [traceLoop, hp],
            by simp [isTerminal]⟩

/-- The search loop is the ≤-threshold filter followed by result shaping. -/
theorem search_vectorstore_filter_map (thr : ℚ) (hits : List (Document × ℚ)) :
    search_vectorstore thr hits =
      (hits.filter fun h => decide (h.2 ≤ thr)).map fun h => mkSearchResult h.1 h.2 := by
  induction hits with
  | nil => rfl
  | cons h t ih =>
      obtain ⟨doc, score⟩ := h
      by_cases hle : score ≤ thr
      · have hng : ¬ score > thr := not_lt.mpr hle
        simp [search_vectorstore, List.filter_cons, hle, hng, ih]
      · have hg : score > thr := lt_of_not_le hle
        simp [search_vectorstore, List.filter_cons, hle, hg, ih]

/-- Every gate step preserves the semaphore accounting: free permits plus
active jobs always equal the capacity. -/
theorem gateStep_invariant {c c' : GateConfig} (h : GateStep c c')
    (hinv : c.1 + activeJobs c.2 = semaphoreCapacity) :
    c'.1 + activeJobs c'.2 = semaphoreCapacity := by
  cases h with
  | acquire p w rest =>
      simp [activeJobs, Multiset.countP_cons, isActive] at hinv ⊢
      omega
  | fileOk p w rest =>
      simp [activeJobs, Multiset.countP_cons, isActive] at hinv ⊢
      omega
  | fileFail p w rest =>
      simp [activeJobs, Multiset.countP_cons, isActive] at hinv ⊢
      omega
  | finish p rest =>
      simp [activeJobs, Multiset.countP_cons, isActive] at hinv ⊢
      omega

/-- The semaphore accounting holds initially: no job is active and all
permits are free. -/
theorem initConfig_invariant (ws : List (List Bool)) :
    (initConfig ws).1 + activeJobs (initConfig ws).2 = semaphoreCapacity := by
  have h0 : activeJobs ((ws.map JobPhase.waiting : List JobPhase) : Multiset JobPhase) = 0 := by
    induction ws with
    | nil => rfl
    | cons w t ih =>
        simp only [List.map_cons, ← Multiset.cons_coe] at ih ⊢
        simp [activeJobs, Multiset.countP_cons, isActive, ih]
  simp [initConfig, h0]

end KB

namespace KB

/-- C2: if every file in the job processes without failure, the job ends
Completed, with `files` the full input filename list in submission order and
`error` none. -/
theorem claim2_all_success (proc : String → PdfBytes → Except String Unit)
    (files : List (String × PdfBytes))
    (hall : ∀ p ∈ files, proc p.1 p.2 = Except.ok ()) :
    run_background_ingest proc files =
      (⟨JobStatus.completed, files.map Prod.fst, none⟩, files.map Prod.fst) := by
  unfold run_background_ingest
  rw [ingestLoop_all_ok proc files [] [] hall]
  simp

/-- Witness for C2 at a concrete two-file job in which both files succeed. -/
theorem claim2_all_success_witness :
    run_background_ingest (fun _ _ => Except.ok ()) [("a.pdf", []), ("b.pdf", [])] =
      (⟨JobStatus.completed, ["a.pdf", "b.pdf"], none⟩, ["a.pdf", "b.pdf"]) :=
  claim2_all_success (fun _ _ => Except.ok ()) [("a.pdf", []), ("b.pdf", [])]
    (by intro p _; rfl)

/-- Counterexample to C1 as stated: a job [A, B, C] where A succeeds and B's
processing raises a failure whose message is empty.  The job record does end
Failed with `files = [A]` and C is never processed, but `error` is the empty
string — not a non-empty error description, refuting the claim's "non-empty
human-readable error description" for this failure. -/
theorem claim1_counterexample :
    run_background_ingest procEmptyMsg [("A", []), ("B", []), ("C", [])] =
      (⟨JobStatus.failed, ["A"], some ""⟩, ["A", "B"])
    ∧ ¬ (∃ s, (run_background_ingest procEmptyMsg
          [("A", []), ("B", []), ("C", [])]).1.error = some s ∧ s ≠ "") := by
  constructor
  · rfl
  · intro ⟨s, hs, hne⟩
    have : some s = some "" := by
      rw [← hs]; rfl
    exact hne (Option.some.injEq s "" ▸ this.symm ▸ rfl)

/-- C1 (amended): for a job [A, B, C] where A's processing succeeds and B's
raises a failure with message `eb`, the job stops immediately without
processing C (the attempted list is exactly [A, B]), and the record ends
Failed with `files = [A]` and `error` equal to the failure's message (so
non-empty exactly when the raised failure's message is non-empty). -/
theorem claim1_fail_fast (proc : String → PdfBytes → Except String Unit)
    (A B C : String) (ca cb cc : PdfBytes) (eb : String)
    (hA : proc A ca = Except.ok ()) (hB : proc B cb = Except.error eb) :
    run_background_ingest proc [(A, ca), (B, cb), (C, cc)] =
      (⟨JobStatus.failed, [A], some eb⟩, [A, B]) := by
  unfold run_background_ingest
  simp only [ingestLoop, hA, hB]
  simp

/-- Witness for C1 (amended) at a concrete job where B fails with message
"boom". -/
theorem claim1_fail_fast_witness :
    run_background_ingest
        (fun filename _ => if filename = "A" then Except.ok () else Except.error "boom")
        [("A", [0]), ("B", [1]), ("C", [2])] =
      (⟨JobStatus.failed, ["A"], some "boom"⟩, ["A", "B"]) :=
  claim1_fail_fast
    (fun filename _ => if filename = "A" then Except.ok () else Except.error "boom")
    "A" "B" "C" [0] [1] [2] "boom" (by rfl) (by rfl)

/-- C7: in the write trace of any job, a terminal write (Completed or
Failed) only ever occurs as the very last write — whenever the trace
decomposes around a terminal record `w`, nothing follows `w` — so once a
record is Completed or Failed no later write changes any of its fields. -/
theorem claim7_terminal_is_last (proc : String → PdfBytes → Except String Unit)
    (files : List (String × PdfBytes)) (pre post : List JobRecord) (w : JobRecord)
    (heq : jobWriteTrace proc files = pre ++ w :: post)
    (ht : isTerminal w = true) : post = [] := by
  obtain ⟨r, hr, _⟩ := traceLoop_singleton proc files []
  rw [jobWriteTrace, hr] at heq
  cases pre with
  | nil =>
      simp only [List.nil_append, List.cons.injEq] at heq
      obtain ⟨hw, -⟩ := heq
      rw [← hw] at ht
      simp [isTerminal] at ht
  | cons a pre1 =>
      cases pre1 with
      | nil =>
          simp only [List.cons_append, List.nil_append, List.cons.injEq] at heq
          obtain ⟨-, hw, -⟩ := heq
          rw [← hw] at ht
          simp [isTerminal] at ht
      | cons b pre2 =>
          cases pre2 with
          | nil =>
              simp only [List.cons_append, List.nil_append, List.cons.injEq] at heq
              exact heq.2.2.2.symm
          | cons c pre3 => simp at heq

/-- Witness for C7: a concrete one-file job whose trace is
[pending, processing, completed], decomposed around the terminal write,
which is indeed followed by nothing. -/
theorem claim7_terminal_is_last_witness :
    jobWriteTrace (fun _ _ => Except.ok ()) [("a.pdf", [])] =
        [⟨JobStatus.pending, [], none⟩, ⟨JobStatus.processing, [], none⟩] ++
          (⟨JobStatus.completed, ["a.pdf"], none⟩ : JobRecord) :: []
      ∧ isTerminal ⟨JobStatus.completed, ["a.pdf"], none⟩ = true
      ∧ ([] : List JobRecord) = [] :=
  ⟨rfl, rfl,
    claim7_terminal_is_last (fun _ _ => Except.ok ()) [("a.pdf", [])]
      [⟨JobStatus.pending, [], none⟩, ⟨JobStatus.processing, [], none⟩] []
      ⟨JobStatus.completed, ["a.pdf"], none⟩ rfl rfl⟩

/-- C6: for a file whose extracted text is all-whitespace (or empty),
chunking yields zero documents without error, nothing is handed to the
vector store's `add_documents`, the per-file call succeeds returning the
filename, and in the job loop a succeeding file is appended to the
processed (and attempted) lists while processing continues. -/
theorem claim6_empty_text (extract : PdfBytes → String → String)
    (split : List Document → List Document)
    (store : List Document → Except String Unit)
    (content : PdfBytes) (filename : String)
    (h : pyStrip (extract content filename) = "") :
    process_pdf_to_documents extract split content filename = []
    ∧ process_and_store_pdf extract split store content filename =
        (Except.ok [filename], [])
    ∧ ∀ (proc : String → PdfBytes → Except String Unit) (c : PdfBytes)
        (rest : List (String × PdfBytes)) (ingested attempted : List String),
        proc filename c = Except.ok () →
        ingestLoop proc ((filename, c) :: rest) ingested attempted =
          ingestLoop proc rest (ingested ++ [filename]) (attempted ++ [filename]) := by
  have hdocs : process_pdf_to_documents extract split content filename = [] := by
    simp [process_pdf_to_documents, h]
  refine ⟨hdocs, ?_, ?_⟩
  · simp [process_and_store_pdf, hdocs]
  · intro proc c rest ingested attempted hok
    simp [ingestLoop, hok]

/-- Witness for C6 at a concrete file whose extracted text is " \n ". -/
theorem claim6_empty_text_witness :
    process_pdf_to_documents (fun _ _ => " \n ") (fun ds => ds) [7] "empty.pdf" = []
    ∧ process_and_store_pdf (fun _ _ => " \n ") (fun ds => ds)
        (fun _ => Except.ok ()) [7] "empty.pdf" = (Except.ok ["empty.pdf"], [])
    ∧ ingestLoop (fun _ _ => Except.ok ())
        [("empty.pdf", [7]), ("b.pdf", [8])] [] [] =
        ingestLoop (fun _ _ => Except.ok ()) [("b.pdf", [8])] ["empty.pdf"] ["empty.pdf"] := by
  obtain ⟨h1, h2, h3⟩ := claim6_empty_text (fun _ _ => " \n ") (fun ds => ds)
    (fun _ => Except.ok ()) [7] "empty.pdf" (by decide)
  refine ⟨h1, h2, ?_⟩
  have := h3 (fun _ _ => Except.ok ()) [7] [("b.pdf", [8])] [] [] rfl
  simpa using this

/-- C3: for every candidate sequence from the index, `search_vectorstore`
removes exactly the candidates whose score exceeds the threshold (the bound
is inclusive: a candidate scoring exactly the threshold survives) and
returns the survivors in the order received, each carrying its source
identifier, its score rounded to two decimals, and its matched text; in
particular scores [0.2, 0.9, 1.8] against the configured threshold 1.5
yield exactly the first two candidates, in that order. -/
theorem claim3_score_filter :
    (∀ (thr : ℚ) (hits : List (Document × ℚ)),
      search_vectorstore thr hits =
        (hits.filter fun h => decide (h.2 ≤ thr)).map fun h => mkSearchResult h.1 h.2)
    ∧ (∀ (doc : Document) (thr : ℚ),
        search_vectorstore thr [(doc, thr)] = [mkSearchResult doc thr])
    ∧ search_vectorstore SEARCH_SCORE_THRESHOLD
        [(⟨"t1", some "doc1.pdf"⟩, 1/5), (⟨"t2", some "doc2.pdf"⟩, 9/10),
          (⟨"t3", some "doc3.pdf"⟩, 9/5)] =
        [⟨"doc1.pdf", 1/5, "t1"⟩, ⟨"doc2.pdf", 9/10, "t2"⟩] := by
  refine ⟨search_vectorstore_filter_map, ?_, ?_⟩
  · intro doc thr
    simp [search_vectorstore, lt_irrefl]
  · have h1 : ¬ ((1 : ℚ)/5 > SEARCH_SCORE_THRESHOLD) := by
      norm_num [SEARCH_SCORE_THRESHOLD]
    have h2 : ¬ ((9 : ℚ)/10 > SEARCH_SCORE_THRESHOLD) := by
      norm_num [SEARCH_SCORE_THRESHOLD]
    have h3 : ((9 : ℚ)/5 > SEARCH_SCORE_THRESHOLD) := by
      norm_num [SEARCH_SCORE_THRESHOLD]
    simp only [search_vectorstore, h1, h2, h3, if_true, if_false]
    norm_num [mkSearchResult, round2, roundHalfToEven]

/-- C5, evaluated at the failing input: a trimmed non-empty query whose
surviving candidate list is empty yields the response `⟨[]⟩` — the
"no relevant documents found" indication computed in the handler is
discarded, because `SearchResponse` declares no `message` field and its
constructor ignores the extra keyword argument whatever its value. -/
theorem claim5_message_dropped :
    search_route (fun _ => Except.ok []) "xyzzy nonexistent topic" =
      Except.ok ⟨[]⟩
    ∧ searchResponseInit [] (some "No relevant documents found.") =
        searchResponseInit [] none := by
  exact ⟨rfl, rfl⟩

/-- C8: a status query for an identifier absent from the job store returns
the 404 not-found client error and no record; for a present identifier it
returns exactly that record's status, files and error fields. -/
theorem claim8_status_query (job_status : String → Option JobRecord)
    (job_id : String) :
    (job_status job_id = none → ingest_status job_status job_id = Except.error 404)
    ∧ ∀ r, job_status job_id = some r →
        ingest_status job_status job_id =
          Except.ok ⟨job_id, r.status, r.files, r.error⟩ := by
  constructor
  · intro h
    simp [ingest_status, h]
  · intro r h
    simp [ingest_status, h]

/-- Witness for C8 at a never-submitted id and at a present id. -/
theorem claim8_status_query_witness :
    ingest_status claim8Store "missing" = Except.error 404
    ∧ ingest_status claim8Store "job-1" =
        Except.ok ⟨"job-1", JobStatus.completed, ["a.pdf"], none⟩ :=
  ⟨(claim8_status_query claim8Store "missing").1 (by rfl),
    (claim8_status_query claim8Store "job-1").2
      ⟨JobStatus.completed, ["a.pdf"], none⟩ (by rfl)⟩

/-- C4, evaluated at the failing input `/database`: the input resolves to
`/database`, which lies outside the permitted root `/data` (it is neither
the root nor below `/data/`), yet `get_pdf_files_from_directory` raises no
traversal error — the plain string-prefix guard accepts it — and the
submission boundary goes on to create a job record and schedule the
background task for it. -/
theorem claim4_traversal_guard_bypassed :
    resolvedDirOf "/database" = "/database"
    ∧ ("/database" : String) ≠ "/data"
    ∧ strStartsWith "/database" ("/data" ++ "/") = false
    ∧ get_pdf_files_from_directory claim4Fs "/database" =
        Except.ok [("x.pdf", [1])]
    ∧ ingest_route_directory claim4Fs "jid-1" "/database" =
        Except.ok
          ⟨⟨some "jid-1", ingestAcceptedMessage 1, ["x.pdf"]⟩,
            some ("jid-1", ⟨JobStatus.pending, [], none⟩),
            some ("jid-1", [("x.pdf", [1])])⟩ :=
  ⟨rfl, by decide, by decide, rfl, rfl⟩

/-- C10: a directory-style submission whose resolved directory contains no
PDF files creates no job record and no background task, and returns the
success acknowledgment with a null job identifier, an empty file list, and
the fixed "No PDF files found in directory." message. -/
theorem claim10_no_pdfs_no_job (fs : String → Option (List (String × PdfBytes)))
    (new_job_id raw_path : String)
    (hne : pyStrip raw_path ≠ "")
    (hempty : get_pdf_files_from_directory fs (pyStrip raw_path) = Except.ok []) :
    ingest_route_directory fs new_job_id raw_path =
      Except.ok ⟨⟨none, "No PDF files found in directory.", []⟩, none, none⟩ := by
  simp [ingest_route_directory, hne, hempty]

/-- Witness for C10 at the concrete input `/data` over an empty data
directory. -/
theorem claim10_no_pdfs_no_job_witness :
    ingest_route_directory claim10Fs "jid-2" "/data" =
      Except.ok ⟨⟨none, "No PDF files found in directory.", []⟩, none, none⟩ :=
  claim10_no_pdfs_no_job claim10Fs "jid-2" "/data" (by decide) (by rfl)

/-- C9: in every configuration reachable from a start with any number of
submitted jobs and all 4 permits free, at most 4 jobs are simultaneously
active past the gate acquisition; free permits plus active jobs always
equal the capacity 4, so a permit is never leaked — in particular whenever
no job is active (for instance after all jobs finished, normally or by
failure) all 4 permits are free again. -/
theorem claim9_gate_bound (ws : List (List Bool)) (c : GateConfig)
    (h : Relation.ReflTransGen GateStep (initConfig ws) c) :
    activeJobs c.2 ≤ 4 ∧ c.1 + activeJobs c.2 = 4
    ∧ (activeJobs c.2 = 0 → c.1 = 4) := by
  have hinv : c.1 + activeJobs c.2 = semaphoreCapacity := by
    induction h with
    | refl => exact initConfig_invariant ws
    | tail hsteps hstep ih => exact gateStep_invariant hstep ih
  have hc : semaphoreCapacity = 4 := rfl
  rw [hc] at hinv
  exact ⟨by omega, by omega, by omega⟩

/-- Witness for C9: from four submitted one-file jobs, one acquisition step
reaches a configuration with one active job and three free permits, where
the bound holds. -/
theorem claim9_gate_bound_witness :
    activeJobs (({JobPhase.running [false]} : Multiset JobPhase)) ≤ 4
    ∧ 3 + activeJobs (({JobPhase.running [false]} : Multiset JobPhase)) = 4
    ∧ (activeJobs (({JobPhase.running [false]} : Multiset JobPhase)) = 0 → 3 = 4) :=
  claim9_gate_bound [[false]] (3, {JobPhase.running [false]})
    (Relation.ReflTransGen.single (GateStep.acquire 3 [false] 0))

end KB
